import Mathlib

/-!
Verification of the image-detection web application (`app.py`, `models.py`)
against its natural-language specification.

Shallow embedding conventions:
* Text (filenames, usernames, labels, messages) is modelled as `List Char`,
  abbreviated `Str`; Python string literals appear as `"...".toList`.
* The filesystem is a set of file names present in the upload folder, plus an
  environment oracle `removable` saying whether `os.remove` succeeds on an
  existing file (it may raise `OSError` for environmental reasons such as
  permissions; on a missing file it raises `FileNotFoundError`).
* External collaborators are opaque parameters: `werkzeug.secure_filename`
  is a function parameter `sec`, `generate_password_hash` a parameter
  `hashf`, and the YOLO Detector's outcome for one call is a parameter
  `det : Except Str (List Str)` (error = the raised exception's message,
  ok = the ordered list of detected class names; on success
  `run_object_detection` also writes the annotated file, mirroring
  `cv2.imwrite` just before the `return`).
* Database tables are lists of rows; `id` is the primary key, so SQLAlchemy's
  `session.delete(row)` is modelled as removing the rows with that id.
-/

abbrev Str := List Char

/-- `ALLOWED_EXTENSIONS = {'png', 'jpg', 'jpeg', 'gif', 'bmp'}` from app.py. -/
def ALLOWED_EXTENSIONS : List Str :=
  ["png".toList, "jpg".toList, "jpeg".toList, "gif".toList, "bmp".toList]

/-- Python `s.rsplit('.', 1)`: split at the last `'.'` if any, giving a
two-element list, else the one-element list `[s]`. -/
def rsplitDot1 (s : Str) : List Str :=
  if s.contains '.' then
    [((s.reverse.dropWhile (fun c => c != '.')).tail).reverse,
     (s.reverse.takeWhile (fun c => c != '.')).reverse]
  else [s]

/-- Python `s.lower()` on the extension. -/
def pyLower (s : Str) : Str := s.map Char.toLower

/-- `allowed_file` from app.py: `'.' in filename and
filename.rsplit('.', 1)[1].lower() in ALLOWED_EXTENSIONS`.  The indexing
`[1]` is modelled by `getElem?`; the short-circuit `and` guarantees the
index exists, and a missing index cannot make the guarded conjunct true. -/
def allowed_file (filename : Str) : Bool :=
  filename.contains '.' &&
    (match (rsplitDot1 filename)[1]? with
     | some ext => ALLOWED_EXTENSIONS.contains (pyLower ext)
     | none => false)

/-- `generate_unique_filename` from app.py.  It evaluates
`original_filename.rsplit('.', 1)[1]` (binding `ext`, unused afterwards),
which raises `IndexError` when the filename has no dot — modelled as `none`.
Otherwise it returns `f"{uuid.uuid4().hex[:8]}_{secure_filename(original_filename)}"`,
with the fresh random token `uuid.uuid4().hex[:8]` passed in as `token` and
`secure_filename` as the opaque `sec`. -/
def generate_unique_filename (sec : Str → Str) (token : Str)
    (original_filename : Str) : Option Str :=
  match (rsplitDot1 original_filename)[1]? with
  | none => none
  | some _ => some (token ++ "_".toList ++ sec original_filename)

/-- `users` table row (models.py `User`): integer primary key, unique
username, password hash. -/
structure UserRow where
  id : Nat
  username : Str
  password_hash : Str
deriving DecidableEq, Repr

/-- `images` table row (models.py `Image`). `uploaded_at` is a timestamp,
modelled as a natural number. -/
structure ImageRow where
  id : Nat
  original_filename : Str
  stored_filename : Str
  detected_filename : Str
  detection_results : Str
  uploaded_at : Nat
  user_id : Nat
deriving DecidableEq, Repr

/-- The upload folder on disk: the set of file names present, plus the
environment oracle `removable` saying whether `os.remove` succeeds on a
present file (permissions etc.). -/
structure FS where
  files : List Str
  removable : Str → Bool

/-- Writing a file (`file.save` / `cv2.imwrite`): the name becomes present;
writing an already-present name overwrites it. -/
def fsWrite (fs : FS) (name : Str) : FS :=
  if name ∈ fs.files then fs else { fs with files := name :: fs.files }

/-- `os.remove(name)`: raises `FileNotFoundError` if the file is absent,
raises `OSError` if the environment makes it unremovable, else removes it. -/
def osRemove (fs : FS) (name : Str) : Except Str FS :=
  if name ∈ fs.files then
    if fs.removable name then
      Except.ok { fs with files := fs.files.filter (fun f => f != name) }
    else Except.error "OSError".toList
  else Except.error "FileNotFoundError".toList

/-- `run_object_detection(image_path, output_path)` from app.py.
`cv2.imread` and the YOLO call may raise (the opaque outcome `det`); on
success the annotated image is written to `output_path` by `cv2.imwrite`
and the ordered list of detected class names is returned. -/
def run_object_detection (det : Except Str (List Str)) (fs : FS)
    (output_path : Str) : Except Str (FS × List Str) :=
  match det with
  | Except.error e => Except.error e
  | Except.ok labels => Except.ok (fsWrite fs output_path, labels)

/-- Outcome of one POST to `/upload`. -/
inductive UploadResult where
  | validationError (msg : Str)
  | detectionFlash (msg : Str)
  | escalated (msg : Str)
  | success (msg : Str)
deriving DecidableEq, Repr

/-- Per-request environment of the upload pipeline: the opaque
`secure_filename`, the Detector outcome for this call, the fresh
`uuid.uuid4().hex[:8]` token, the current user's id, the next primary key,
and the `uploaded_at` timestamp. -/
structure UploadEnv where
  sec : Str → Str
  det : Except Str (List Str)
  token : Str
  uid : Nat
  nextId : Nat
  now : Nat

/-- The POST branch of `upload` in app.py, lines 286-338.
`filename = none` models `'image' not in request.files`; `some fname`
carries `file.filename`.  Mirrors the source order: file-part check, empty
name check, `allowed_file` check, `generate_unique_filename`,
`detected_filename = 'detected_' + stored_filename`, `file.save`,
then the `try` around `run_object_detection` whose `except` runs
`os.remove(stored_path)` (unguarded: if that raises, the exception
escalates) before flashing; on success the `detection_results` string is
computed and one `Image` row is committed. -/
def upload (env : UploadEnv) (filename : Option Str) (fs : FS)
    (db : List ImageRow) : UploadResult × FS × List ImageRow :=
  match filename with
  | none => (UploadResult.validationError "No file selected.".toList, fs, db)
  | some fname =>
    if fname = [] then
      (UploadResult.validationError "No file selected.".toList, fs, db)
    else if !(allowed_file fname) then
      (UploadResult.validationError
        "File type not allowed. Please upload an image (png, jpg, jpeg, gif, bmp).".toList,
       fs, db)
    else
      match generate_unique_filename env.sec env.token fname with
      | none => (UploadResult.escalated "IndexError".toList, fs, db)
      | some stored_filename =>
        let detected_filename := "detected_".toList ++ stored_filename
        let fs1 := fsWrite fs stored_filename
        match run_object_detection env.det fs1 detected_filename with
        | Except.ok (fs2, detected_objects) =>
          let detection_results :=
            if detected_objects.isEmpty then "No objects detected".toList
            else List.intercalate ", ".toList detected_objects
          let row : ImageRow :=
            { id := env.nextId
              original_filename := fname
              stored_filename := stored_filename
              detected_filename := detected_filename
              detection_results := detection_results
              uploaded_at := env.now
              user_id := env.uid }
          (UploadResult.success
            ("Image uploaded successfully! Detected: ".toList ++ detection_results),
           fs2, db ++ [row])
        | Except.error e =>
          match osRemove fs1 stored_filename with
          | Except.ok fs2 =>
            (UploadResult.detectionFlash
              ("Error during object detection: ".toList ++ e), fs2, db)
          | Except.error e2 => (UploadResult.escalated e2, fs1, db)

/-- Python `s.strip()`: drop whitespace from both ends. -/
def pyStrip (s : Str) : Str :=
  ((s.dropWhile Char.isWhitespace).reverse.dropWhile Char.isWhitespace).reverse

/-- Outcome of one POST to `/signup`. -/
inductive SignupResult where
  | validationError (msg : Str)
  | created (msg : Str)
deriving DecidableEq, Repr

/-- The POST branch of `signup` in app.py, lines 181-220 (for a
non-authenticated requester).  `hashf` is the opaque
`werkzeug.generate_password_hash`.  The checks appear in source order:
`not username or not password`, `len(username) < 3`, `len(password) < 4`,
`password != confirm_password`, then the duplicate-username lookup;
only if all pass is one `User` row added and committed. -/
def signup (hashf : Str → Str) (username_form password confirm_password : Str)
    (db : List UserRow) (nextId : Nat) : SignupResult × List UserRow :=
  if pyStrip username_form = [] ∨ password = [] then
    (SignupResult.validationError "Username and password are required.".toList, db)
  else if (pyStrip username_form).length < 3 then
    (SignupResult.validationError "Username must be at least 3 characters.".toList, db)
  else if password.length < 4 then
    (SignupResult.validationError "Password must be at least 4 characters.".toList, db)
  else if password ≠ confirm_password then
    (SignupResult.validationError "Passwords do not match.".toList, db)
  else
    match db.find? (fun u => u.username == pyStrip username_form) with
    | some _ =>
      (SignupResult.validationError
        "Username already exists. Please choose another.".toList, db)
    | none =>
      (SignupResult.created "Account created successfully! Please log in.".toList,
       db ++ [{ id := nextId, username := pyStrip username_form,
                password_hash := hashf password }])

/-- The `ORDER BY uploaded_at DESC` relation: `a` comes before `b` when
`a.uploaded_at ≥ b.uploaded_at` (newest first). -/
def newerFirst (a b : ImageRow) : Prop := b.uploaded_at ≤ a.uploaded_at

instance : DecidableRel newerFirst := fun a b => Nat.decLe b.uploaded_at a.uploaded_at

instance : IsTotal ImageRow newerFirst :=
  ⟨fun a b => Nat.le_total b.uploaded_at a.uploaded_at⟩

instance : IsTrans ImageRow newerFirst :=
  ⟨fun _ _ _ h1 h2 => Nat.le_trans h2 h1⟩

/-- The `images` route, app.py lines 347-358:
`Image.query.filter_by(user_id=current_user.id).order_by(Image.uploaded_at.desc()).all()`. -/
def images (uid : Nat) (db : List ImageRow) : List ImageRow :=
  List.insertionSort newerFirst (db.filter (fun r => r.user_id == uid))

/-- Outcome of one POST to `/delete/<image_id>`. -/
inductive DeleteResult where
  | notFound
  | authError (msg : Str)
  | deletedWithFileError (msg : Str)
  | deleted (msg : Str)
deriving DecidableEq, Repr

/-- The two `if os.path.exists(...): os.remove(...)` statements inside the
`try` of `delete_image`, together with its `except` clause: if removing the
stored file raises, the detected file is not touched (the exception jumps to
the handler); either way the exception message is flashed and execution
continues.  Returns the new filesystem and the flashed message, if any. -/
def tryDeleteFiles (fs : FS) (stored detected : Str) : FS × Option Str :=
  if stored ∈ fs.files then
    match osRemove fs stored with
    | Except.error e => (fs, some ("Error deleting files: ".toList ++ e))
    | Except.ok fs1 =>
      if detected ∈ fs1.files then
        match osRemove fs1 detected with
        | Except.error e => (fs1, some ("Error deleting files: ".toList ++ e))
        | Except.ok fs2 => (fs2, none)
      else (fs1, none)
  else
    if detected ∈ fs.files then
      match osRemove fs detected with
      | Except.error e => (fs, some ("Error deleting files: ".toList ++ e))
      | Except.ok fs1 => (fs1, none)
    else (fs, none)

/-- `delete_image` from app.py, lines 361-393.  `get_or_404` is the lookup
by primary key; a non-owner is refused before any change; otherwise files
are removed best-effort (`tryDeleteFiles`) and then `session.delete` +
`commit` remove the row with that primary key unconditionally. -/
def delete_image (uid image_id : Nat) (fs : FS) (db : List ImageRow) :
    DeleteResult × FS × List ImageRow :=
  match db.find? (fun r => r.id == image_id) with
  | none => (DeleteResult.notFound, fs, db)
  | some image =>
    if image.user_id ≠ uid then
      (DeleteResult.authError "You can only delete your own images.".toList, fs, db)
    else
      let (fs1, ferr) := tryDeleteFiles fs image.stored_filename image.detected_filename
      (match ferr with
       | some e => DeleteResult.deletedWithFileError e
       | none => DeleteResult.deleted "Image deleted successfully.".toList,
       fs1, db.filter (fun r => !(r.id == image_id)))

/-! ### Helper abbreviations and lemmas -/

/-- The stored filename `upload` allocates for `fname` (the value of
`generate_unique_filename` on the upload's fresh token). -/
def storedName (env : UploadEnv) (fname : Str) : Str :=
  env.token ++ "_".toList ++ env.sec fname

/-- The paired detected filename: `'detected_' + stored_filename`. -/
def detectedName (env : UploadEnv) (fname : Str) : Str :=
  "detected_".toList ++ storedName env fname

/-- A character of `uuid.uuid4().hex`: a decimal digit or a lowercase
letter `a`-`f`. -/
def isUuidHexChar (c : Char) : Bool := c.isDigit || ('a' ≤ c && c ≤ 'f')

/-- A concrete stand-in for `werkzeug.secure_filename` on already-safe
names: the identity. -/
def secId : Str → Str := id

/-- An empty upload folder in an environment where every `os.remove`
succeeds. -/
def fsEmptyRemovable : FS := { files := [], removable := fun _ => true }

/-- An empty upload folder in an environment where every `os.remove`
raises `OSError` (e.g. the directory became read-only). -/
def fsEmptyStuck : FS := { files := [], removable := fun _ => false }

/-- Upload request environment: Detector returns no objects. -/
def envNoLabels : UploadEnv :=
  { sec := secId, det := Except.ok [], token := "aaaabbbb".toList,
    uid := 1, nextId := 1, now := 0 }

/-- Upload request environment: Detector returns `["dog", "person"]`. -/
def envDogPerson : UploadEnv :=
  { sec := secId, det := Except.ok ["dog".toList, "person".toList],
    token := "aaaabbbb".toList, uid := 1, nextId := 1, now := 0 }

/-- Upload request environment: Detector raises `decode failure`. -/
def envDecodeFail : UploadEnv :=
  { sec := secId, det := Except.error "decode failure".toList,
    token := "00ff11aa".toList, uid := 2, nextId := 5, now := 9 }

/-- Upload request environment: Detector raises `unreadable image`. -/
def envUnreadable : UploadEnv :=
  { sec := secId, det := Except.error "unreadable image".toList,
    token := "deadbeef".toList, uid := 3, nextId := 2, now := 4 }

/-- Upload request environment: Detector returns `["dog"]`. -/
def envDog : UploadEnv :=
  { sec := secId, det := Except.ok ["dog".toList], token := "12345678".toList,
    uid := 1, nextId := 1, now := 0 }

/-- A concrete `images` row owned by user 1. -/
def imgRow1 : ImageRow :=
  { id := 1, original_filename := "a.png".toList,
    stored_filename := "aaaa1111_a.png".toList,
    detected_filename := "detected_aaaa1111_a.png".toList,
    detection_results := "dog".toList, uploaded_at := 10, user_id := 1 }

/-- A concrete `images` row owned by user 2. -/
def imgRow2 : ImageRow :=
  { id := 2, original_filename := "b.png".toList,
    stored_filename := "bbbb2222_b.png".toList,
    detected_filename := "detected_bbbb2222_b.png".toList,
    detection_results := [], uploaded_at := 20, user_id := 2 }

/-- Scenario row A: user 1's earliest upload. -/
def c8RowA : ImageRow :=
  { id := 1, original_filename := "a.png".toList,
    stored_filename := "11111111_a.png".toList,
    detected_filename := "detected_11111111_a.png".toList,
    detection_results := "cat".toList, uploaded_at := 1, user_id := 1 }

/-- Scenario row B: user 1's middle upload. -/
def c8RowB : ImageRow :=
  { c8RowA with id := 2, uploaded_at := 2 }

/-- Scenario row C: user 1's latest upload. -/
def c8RowC : ImageRow :=
  { c8RowA with id := 3, uploaded_at := 3 }

/-- A concrete `users` row. -/
def aliceRow : UserRow :=
  { id := 1, username := "alice".toList, password_hash := "hash-one".toList }

lemma generate_eq_of_allowed (sec : Str → Str) (token fname : Str)
    (h : allowed_file fname = true) :
    generate_unique_filename sec token fname =
      some (token ++ "_".toList ++ sec fname) := by
  unfold allowed_file at h
  unfold generate_unique_filename
  cases h' : (rsplitDot1 fname)[1]? with
  | none => rw [h'] at h; simp at h
  | some ext => rfl

lemma generate_some_eq (sec : Str → Str) (token fname s : Str)
    (h : generate_unique_filename sec token fname = some s) :
    s = token ++ "_".toList ++ sec fname := by
  unfold generate_unique_filename at h
  cases h' : (rsplitDot1 fname)[1]? with
  | none => rw [h'] at h; simp at h
  | some ext => rw [h'] at h; exact (Option.some.inj h).symm

lemma mem_fsWrite_self (fs : FS) (name : Str) : name ∈ (fsWrite fs name).files := by
  unfold fsWrite; split
  · assumption
  · exact List.mem_cons_self _ _

lemma mem_fsWrite_of_mem (fs : FS) (name x : Str) (h : x ∈ fs.files) :
    x ∈ (fsWrite fs name).files := by
  unfold fsWrite; split
  · exact h
  · exact List.mem_cons_of_mem _ h

lemma mem_fsWrite_elim (fs : FS) (name x : Str) (h : x ∈ (fsWrite fs name).files) :
    x ∈ fs.files ∨ x = name := by
  unfold fsWrite at h; split at h
  · exact Or.inl h
  · rcases List.mem_cons.mp h with h | h
    · exact Or.inr h
    · exact Or.inl h

lemma fsWrite_removable (fs : FS) (name : Str) :
    (fsWrite fs name).removable = fs.removable := by
  unfold fsWrite; split <;> rfl

lemma osRemove_ok (fs : FS) (name : Str) (hmem : name ∈ fs.files)
    (hrem : fs.removable name = true) :
    osRemove fs name =
      Except.ok { fs with files := fs.files.filter (fun f => f != name) } := by
  simp [osRemove, hmem, hrem]

lemma osRemove_err (fs : FS) (name : Str) (hmem : name ∈ fs.files)
    (hrem : fs.removable name = false) :
    osRemove fs name = Except.error "OSError".toList := by
  simp [osRemove, hmem, hrem]

/-- The success path of `upload`, fully characterized. -/
lemma upload_ok_eq (env : UploadEnv) (fname : Str) (fs : FS) (db : List ImageRow)
    (labels : List Str) (hal : allowed_file fname = true) (hne : fname ≠ [])
    (hdet : env.det = Except.ok labels) :
    upload env (some fname) fs db =
      (UploadResult.success ("Image uploaded successfully! Detected: ".toList ++
         (if labels.isEmpty then "No objects detected".toList
          else List.intercalate ", ".toList labels)),
       fsWrite (fsWrite fs (storedName env fname)) (detectedName env fname),
       db ++ [{ id := env.nextId
                original_filename := fname
                stored_filename := storedName env fname
                detected_filename := detectedName env fname
                detection_results :=
                  if labels.isEmpty then "No objects detected".toList
                  else List.intercalate ", ".toList labels
                uploaded_at := env.now
                user_id := env.uid }]) := by
  simp only [upload, if_neg hne, hal, Bool.not_true, Bool.false_eq_true, if_false,
    generate_eq_of_allowed env.sec env.token fname hal, hdet, run_object_detection,
    storedName, detectedName]

/-- The detection-failure path of `upload` when the just-written stored file
is removable: cleanup succeeds and the detection error is flashed. -/
lemma upload_err_flash_eq (env : UploadEnv) (fname : Str) (fs : FS)
    (db : List ImageRow) (e : Str) (hal : allowed_file fname = true)
    (hne : fname ≠ []) (hdet : env.det = Except.error e)
    (hrem : fs.removable (storedName env fname) = true) :
    upload env (some fname) fs db =
      (UploadResult.detectionFlash ("Error during object detection: ".toList ++ e),
       { fsWrite fs (storedName env fname) with
         files := (fsWrite fs (storedName env fname)).files.filter
           (fun f => f != storedName env fname) },
       db) := by
  have hrem' : (fsWrite fs (env.token ++ "_".toList ++ env.sec fname)).removable
      (env.token ++ "_".toList ++ env.sec fname) = true := by
    rw [fsWrite_removable]; simpa [storedName] using hrem
  simp only [upload, if_neg hne, hal, Bool.not_true, Bool.false_eq_true, if_false,
    generate_eq_of_allowed env.sec env.token fname hal, hdet, run_object_detection,
    storedName, detectedName]
  rw [osRemove_ok _ _ (mem_fsWrite_self _ _) hrem']

/-- The detection-failure path of `upload` when the just-written stored file
is not removable: `os.remove` raises inside the `except` handler and the
exception escalates; the stored file remains and no row is created. -/
lemma upload_err_escalated_eq (env : UploadEnv) (fname : Str) (fs : FS)
    (db : List ImageRow) (e : Str) (hal : allowed_file fname = true)
    (hne : fname ≠ []) (hdet : env.det = Except.error e)
    (hrem : fs.removable (storedName env fname) = false) :
    upload env (some fname) fs db =
      (UploadResult.escalated "OSError".toList,
       fsWrite fs (storedName env fname), db) := by
  have hrem' : (fsWrite fs (env.token ++ "_".toList ++ env.sec fname)).removable
      (env.token ++ "_".toList ++ env.sec fname) = false := by
    rw [fsWrite_removable]; simpa [storedName] using hrem
  simp only [upload, if_neg hne, hal, Bool.not_true, Bool.false_eq_true, if_false,
    generate_eq_of_allowed env.sec env.token fname hal, hdet, run_object_detection,
    storedName, detectedName]
  rw [osRemove_err _ _ (mem_fsWrite_self _ _) hrem']

lemma detectedName_ne_storedName (env : UploadEnv) (fname : Str) :
    detectedName env fname ≠ storedName env fname := by
  intro h
  have hlen := congrArg List.length h
  rw [detectedName, List.length_append] at hlen
  have h9 : ("detected_".toList).length = 9 := rfl
  rw [h9] at hlen
  omega

lemma tryDeleteFiles_of_absent (fs : FS) (stored detected : Str)
    (h1 : stored ∉ fs.files) (h2 : detected ∉ fs.files) :
    tryDeleteFiles fs stored detected = (fs, none) := by
  simp [tryDeleteFiles, h1, h2]

/-! ### Claims -/

/-- Claim C1, as stated, is false on the code: when the Detector returns an
empty label list, the persisted `detection_results` field of the created row
is the literal `"No objects detected"`, not the empty string obtained by
joining the empty list (app.py line 319 computes the display string before
the row is built and line 331 stores that very string). -/
theorem C1_counterexample :
    ((upload envNoLabels (some "photo.png".toList) fsEmptyRemovable []).2.2.map
        (fun r => r.detection_results)) = ["No objects detected".toList] ∧
      "No objects detected".toList ≠ List.intercalate ", ".toList ([] : List Str) :=
  ⟨rfl, by decide⟩

/-- Claim C1, amended: for every successful upload, exactly one Image row is
appended and its persisted `detection_results` equals the Detector's labels
joined with `", "` in returned order when the list is non-empty; when the
Detector returns an empty list, the literal `"No objects detected"` itself
is persisted (the display string is stored verbatim, not the empty string). -/
theorem C1_amended_persisted_results (env : UploadEnv) (fname : Str) (fs : FS)
    (db : List ImageRow) (labels : List Str)
    (hal : allowed_file fname = true) (hne : fname ≠ [])
    (hdet : env.det = Except.ok labels) :
    (upload env (some fname) fs db).2.2 =
      db ++ [{ id := env.nextId
               original_filename := fname
               stored_filename := storedName env fname
               detected_filename := detectedName env fname
               detection_results :=
                 if labels.isEmpty then "No objects detected".toList
                 else List.intercalate ", ".toList labels
               uploaded_at := env.now
               user_id := env.uid }] := by
  rw [upload_ok_eq env fname fs db labels hal hne hdet]

/-- Claim C1 witness: the amended statement evaluated on a concrete upload
where the Detector returns `["dog", "person"]`. -/
theorem C1_witness :
    (upload envDogPerson (some "photo.png".toList) fsEmptyRemovable []).2.2 =
      [] ++ [{ id := envDogPerson.nextId
               original_filename := "photo.png".toList
               stored_filename := storedName envDogPerson "photo.png".toList
               detected_filename := detectedName envDogPerson "photo.png".toList
               detection_results :=
                 if ["dog".toList, "person".toList].isEmpty then
                   "No objects detected".toList
                 else List.intercalate ", ".toList ["dog".toList, "person".toList]
               uploaded_at := envDogPerson.now
               user_id := envDogPerson.uid }] :=
  C1_amended_persisted_results envDogPerson "photo.png".toList fsEmptyRemovable []
    ["dog".toList, "person".toList] (by decide) (by decide) rfl

/-- Claim C2, as stated, is false on the code: in a detection-failure path
where deleting the stored file itself fails (here: the environment makes the
just-written file unremovable), the `os.remove` call inside the `except`
handler raises and the exception escalates — the detection error is never
surfaced to the user (the result is not the detection-error flash).  The
true half survives: no Image row is created. -/
theorem C2_counterexample :
    (upload envDecodeFail (some "cat.jpg".toList) fsEmptyStuck []).1 =
        UploadResult.escalated "OSError".toList ∧
      (upload envDecodeFail (some "cat.jpg".toList) fsEmptyStuck []).1 ≠
        UploadResult.detectionFlash
          ("Error during object detection: ".toList ++ "decode failure".toList) ∧
      (upload envDecodeFail (some "cat.jpg".toList) fsEmptyStuck []).2.2 = [] :=
  ⟨rfl, by decide, rfl⟩

/-- Claim C2, amended: if deleting the stored file in the detection-failure
path itself fails, the pipeline still creates no Image row, but the cleanup
failure is fatal to the response: the `OSError` escalates uncaught instead
of the detection error being surfaced, and the stored file remains on disk. -/
theorem C2_amended_cleanup_failure (env : UploadEnv) (fname : Str) (fs : FS)
    (db : List ImageRow) (e : Str) (hal : allowed_file fname = true)
    (hne : fname ≠ []) (hdet : env.det = Except.error e)
    (hrem : fs.removable (storedName env fname) = false) :
    upload env (some fname) fs db =
      (UploadResult.escalated "OSError".toList,
       fsWrite fs (storedName env fname), db) :=
  upload_err_escalated_eq env fname fs db e hal hne hdet hrem

/-- Claim C2 witness: the amended statement evaluated on a concrete upload
whose Detector raises while the stored file is unremovable. -/
theorem C2_witness :
    upload envDecodeFail (some "cat.jpg".toList) fsEmptyStuck [] =
      (UploadResult.escalated "OSError".toList,
       fsWrite fsEmptyStuck (storedName envDecodeFail "cat.jpg".toList), []) :=
  C2_amended_cleanup_failure envDecodeFail "cat.jpg".toList fsEmptyStuck []
    "decode failure".toList (by decide) (by decide) rfl rfl

/-- Claim C3: for every validated upload whose allocated detected filename is
fresh on disk, an Image row is created if and only if both the stored and the
detected file are present afterwards, and a row is only ever created when the
detection step succeeded.  Concretely: if the database changed, detection
returned ok, exactly one row was appended, and both of its files are on
disk; if the database is unchanged, the detected file was never written. -/
theorem C3_row_iff_files (env : UploadEnv) (fname : Str) (fs : FS)
    (db : List ImageRow) (hal : allowed_file fname = true) (hne : fname ≠ [])
    (hfresh : detectedName env fname ∉ fs.files) :
    ((upload env (some fname) fs db).2.2 ≠ db →
       (∃ labels, env.det = Except.ok labels) ∧
       ∃ row, (upload env (some fname) fs db).2.2 = db ++ [row] ∧
         row.stored_filename ∈ (upload env (some fname) fs db).2.1.files ∧
         row.detected_filename ∈ (upload env (some fname) fs db).2.1.files) ∧
    ((upload env (some fname) fs db).2.2 = db →
       detectedName env fname ∉ (upload env (some fname) fs db).2.1.files) := by
  cases hdet : env.det with
  | ok labels =>
    rw [upload_ok_eq env fname fs db labels hal hne hdet]
    constructor
    · intro _
      refine ⟨⟨labels, hdet ▸ rfl⟩, ⟨_, rfl, ?_, ?_⟩⟩
      · exact mem_fsWrite_of_mem _ _ _ (mem_fsWrite_self _ _)
      · exact mem_fsWrite_self _ _
    · intro heq
      exfalso
      have := congrArg List.length heq
      simp at this
  | error e =>
    by_cases hrem : fs.removable (storedName env fname) = true
    · rw [upload_err_flash_eq env fname fs db e hal hne hdet hrem]
      refine ⟨fun h => absurd rfl h, fun _ hmem => ?_⟩
      have hmem' := (List.mem_filter.mp hmem).1
      rcases mem_fsWrite_elim fs _ _ hmem' with h | h
      · exact hfresh h
      · exact detectedName_ne_storedName env fname h
    · have hrem' : fs.removable (storedName env fname) = false := by
        revert hrem; cases fs.removable (storedName env fname) <;> simp
      rw [upload_err_escalated_eq env fname fs db e hal hne hdet hrem']
      refine ⟨fun h => absurd rfl h, fun _ hmem => ?_⟩
      rcases mem_fsWrite_elim fs _ _ hmem with h | h
      · exact hfresh h
      · exact detectedName_ne_storedName env fname h

/-- Claim C3 witness: the statement evaluated on a concrete successful
upload where the Detector returns `["dog"]`. -/
theorem C3_witness :
    ((upload envDog (some "photo.png".toList) fsEmptyRemovable []).2.2 ≠ [] →
       (∃ labels, envDog.det = Except.ok labels) ∧
       ∃ row, (upload envDog (some "photo.png".toList) fsEmptyRemovable []).2.2 =
           [] ++ [row] ∧
         row.stored_filename ∈
           (upload envDog (some "photo.png".toList) fsEmptyRemovable []).2.1.files ∧
         row.detected_filename ∈
           (upload envDog (some "photo.png".toList) fsEmptyRemovable []).2.1.files) ∧
    ((upload envDog (some "photo.png".toList) fsEmptyRemovable []).2.2 = [] →
       detectedName envDog "photo.png".toList ∉
         (upload envDog (some "photo.png".toList) fsEmptyRemovable []).2.1.files) :=
  C3_row_iff_files envDog "photo.png".toList fsEmptyRemovable []
    (by decide) (by decide) (by decide)

/-- Claim C4, as stated, is false on the code: in an upload where the
Detector raises but the environment makes the just-written stored file
unremovable, the stored file is still present afterwards and the result is
an escalated `OSError`, not a user-facing detection error.  Only the no-row
half holds. -/
theorem C4_counterexample :
    (upload envUnreadable (some "dog.bmp".toList) fsEmptyStuck []).2.2 = [] ∧
      storedName envUnreadable "dog.bmp".toList ∈
        (upload envUnreadable (some "dog.bmp".toList) fsEmptyStuck []).2.1.files ∧
      (upload envUnreadable (some "dog.bmp".toList) fsEmptyStuck []).1 =
        UploadResult.escalated "OSError".toList :=
  ⟨rfl, by decide, rfl⟩

/-- Claim C4, amended: for every validated upload where the Detector raises,
no Image row is ever created; and whenever the cleanup `os.remove` succeeds
(the stored file is removable), the stored file is absent afterwards and the
detection error is surfaced as a user-facing flash.  (When cleanup itself
fails, the stored file may remain and the cleanup exception escalates.) -/
theorem C4_amended_detection_failure (env : UploadEnv) (fname : Str) (fs : FS)
    (db : List ImageRow) (e : Str) (hal : allowed_file fname = true)
    (hne : fname ≠ []) (hdet : env.det = Except.error e) :
    (upload env (some fname) fs db).2.2 = db ∧
    (fs.removable (storedName env fname) = true →
       storedName env fname ∉ (upload env (some fname) fs db).2.1.files ∧
       (upload env (some fname) fs db).1 =
         UploadResult.detectionFlash
           ("Error during object detection: ".toList ++ e)) := by
  by_cases hrem : fs.removable (storedName env fname) = true
  · rw [upload_err_flash_eq env fname fs db e hal hne hdet hrem]
    refine ⟨rfl, fun _ => ⟨fun hmem => ?_, rfl⟩⟩
    have := (List.mem_filter.mp hmem).2
    simp at this
  · have hrem' : fs.removable (storedName env fname) = false := by
      revert hrem; cases fs.removable (storedName env fname) <;> simp
    rw [upload_err_escalated_eq env fname fs db e hal hne hdet hrem']
    exact ⟨rfl, fun h => absurd h (by rw [hrem']; simp)⟩

/-- Claim C4 witness: the amended statement evaluated on a concrete upload
whose Detector raises in an environment where cleanup succeeds. -/
theorem C4_witness :
    (upload envUnreadable (some "dog.bmp".toList) fsEmptyRemovable []).2.2 = [] ∧
    (fsEmptyRemovable.removable (storedName envUnreadable "dog.bmp".toList) = true →
       storedName envUnreadable "dog.bmp".toList ∉
         (upload envUnreadable (some "dog.bmp".toList) fsEmptyRemovable []).2.1.files ∧
       (upload envUnreadable (some "dog.bmp".toList) fsEmptyRemovable []).1 =
         UploadResult.detectionFlash
           ("Error during object detection: ".toList ++ "unreadable image".toList)) :=
  C4_amended_detection_failure envUnreadable "dog.bmp".toList fsEmptyRemovable []
    "unreadable image".toList (by decide) (by decide) rfl

/-- Claim C5: for every deletion request by the owning user on an existing
Image, and for every filesystem state (files present or absent, removable or
not), the database row is removed, so subsequent listings for that user
never include the image; the result is never not-found, and when both files
are already absent the deletion still reports plain success (absence is not
an error). -/
theorem C5_owner_delete_removes_row (uid image_id : Nat) (fs : FS)
    (db : List ImageRow) (img : ImageRow)
    (hfind : db.find? (fun r => r.id == image_id) = some img)
    (hown : img.user_id = uid) :
    (delete_image uid image_id fs db).2.2 =
        db.filter (fun r => !(r.id == image_id)) ∧
    img ∉ (delete_image uid image_id fs db).2.2 ∧
    img ∉ images uid (delete_image uid image_id fs db).2.2 ∧
    (delete_image uid image_id fs db).1 ≠ DeleteResult.notFound ∧
    (img.stored_filename ∉ fs.files → img.detected_filename ∉ fs.files →
      (delete_image uid image_id fs db).1 =
        DeleteResult.deleted "Image deleted successfully.".toList) := by
  have hid : (img.id == image_id) = true := by
    have h := List.find?_some hfind
    exact h
  have hnot : ¬ (img.user_id ≠ uid) := by simp [hown]
  have hnomem : img ∉ db.filter (fun r => !(r.id == image_id)) := by
    intro hmem
    have hpred := (List.mem_filter.mp hmem).2
    rw [hid] at hpred
    exact Bool.noConfusion hpred
  have hstep : delete_image uid image_id fs db =
      (match (tryDeleteFiles fs img.stored_filename img.detected_filename).2 with
       | some e => DeleteResult.deletedWithFileError e
       | none => DeleteResult.deleted "Image deleted successfully.".toList,
       (tryDeleteFiles fs img.stored_filename img.detected_filename).1,
       db.filter (fun r => !(r.id == image_id))) := by
    unfold delete_image
    rw [hfind]
    simp only [if_neg hnot]
  rw [hstep]
  refine ⟨rfl, hnomem, ?_, ?_, ?_⟩
  · intro hmem
    have hmem' := (List.perm_insertionSort newerFirst _).mem_iff.mp hmem
    exact hnomem (List.mem_filter.mp hmem').1
  · cases (tryDeleteFiles fs img.stored_filename img.detected_filename).2 <;> simp
  · intro h1 h2
    rw [tryDeleteFiles_of_absent fs img.stored_filename img.detected_filename h1 h2]

/-- Claim C5 witness: the statement evaluated on a concrete two-row database
with user 1 deleting their own image while neither file is on disk. -/
theorem C5_witness :
    (delete_image 1 1 fsEmptyRemovable [imgRow1, imgRow2]).2.2 =
        [imgRow1, imgRow2].filter (fun r => !(r.id == 1)) ∧
    imgRow1 ∉ (delete_image 1 1 fsEmptyRemovable [imgRow1, imgRow2]).2.2 ∧
    imgRow1 ∉ images 1 (delete_image 1 1 fsEmptyRemovable [imgRow1, imgRow2]).2.2 ∧
    (delete_image 1 1 fsEmptyRemovable [imgRow1, imgRow2]).1 ≠ DeleteResult.notFound ∧
    (imgRow1.stored_filename ∉ fsEmptyRemovable.files →
       imgRow1.detected_filename ∉ fsEmptyRemovable.files →
       (delete_image 1 1 fsEmptyRemovable [imgRow1, imgRow2]).1 =
         DeleteResult.deleted "Image deleted successfully.".toList) :=
  C5_owner_delete_removes_row 1 1 fsEmptyRemovable [imgRow1, imgRow2] imgRow1
    (by decide) rfl

/-- Claim C6: a deletion request on an existing Image by a user who is not
its owner is refused with the authorization flash and changes nothing: the
filesystem and the database are returned untouched. -/
theorem C6_nonowner_delete_no_changes (uid image_id : Nat) (fs : FS)
    (db : List ImageRow) (img : ImageRow)
    (hfind : db.find? (fun r => r.id == image_id) = some img)
    (hown : img.user_id ≠ uid) :
    delete_image uid image_id fs db =
      (DeleteResult.authError "You can only delete your own images.".toList,
       fs, db) := by
  simp only [delete_image, hfind, if_pos hown]

/-- Claim C6 witness: user 2 attempting to delete user 1's image leaves
everything unchanged. -/
theorem C6_witness :
    delete_image 2 1 fsEmptyRemovable [imgRow1, imgRow2] =
      (DeleteResult.authError "You can only delete your own images.".toList,
       fsEmptyRemovable, [imgRow1, imgRow2]) :=
  C6_nonowner_delete_no_changes 2 1 fsEmptyRemovable [imgRow1, imgRow2] imgRow1
    (by decide) (by decide)

/-- Claim C7: every signup attempt violating a validation rule — stripped
username empty or shorter than 3 characters, password shorter than 4
characters, password different from its confirmation, or username already
taken — fails with a validation error and leaves the `users` table exactly
as it was (so no row is created and, in the duplicate case, the original
user's password hash is unchanged). -/
theorem C7_signup_validation (hashf : Str → Str)
    (username_form password confirm_password : Str) (db : List UserRow)
    (nextId : Nat)
    (hv : pyStrip username_form = [] ∨ (pyStrip username_form).length < 3 ∨
      password.length < 4 ∨ password ≠ confirm_password ∨
      ∃ u ∈ db, u.username = pyStrip username_form) :
    ∃ msg, signup hashf username_form password confirm_password db nextId =
      (SignupResult.validationError msg, db) := by
  unfold signup
  split
  · exact ⟨_, rfl⟩
  next h1 =>
    split
    · exact ⟨_, rfl⟩
    next h2 =>
      split
      · exact ⟨_, rfl⟩
      next h3 =>
        split
        · exact ⟨_, rfl⟩
        next h4 =>
          cases hf : db.find? (fun u => u.username == pyStrip username_form) with
          | some u => simp only [hf]; exact ⟨_, rfl⟩
          | none =>
            exfalso
            rcases hv with h | h | h | h | ⟨u, hu, hname⟩
            · exact h1 (Or.inl h)
            · exact h2 h
            · exact h3 h
            · exact h4 h
            · have := List.find?_eq_none.mp hf u hu
              simp only [beq_iff_eq] at this
              exact this hname

/-- Claim C7 witness: a duplicate-username signup against a one-row table
fails with a validation error and leaves the table unchanged. -/
theorem C7_witness :
    ∃ msg, signup secId "alice".toList "pass".toList "pass".toList [aliceRow] 2 =
      (SignupResult.validationError msg, [aliceRow]) :=
  C7_signup_validation secId "alice".toList "pass".toList "pass".toList [aliceRow] 2
    (Or.inr (Or.inr (Or.inr (Or.inr ⟨aliceRow, by decide, by decide⟩))))

/-- Claim C8: for every listing request, the result is a permutation of
exactly the rows whose `user_id` equals the requesting user's id, it is
sorted by `uploaded_at` descending (newest first), and on the concrete
scenario of uploading A then B then C (timestamps 1, 2, 3) the order is
`[C, B, A]`. -/
theorem C8_listing_order (uid : Nat) (db : List ImageRow) :
    (images uid db).Perm (db.filter (fun r => r.user_id == uid)) ∧
    (images uid db).Sorted newerFirst ∧
    images 1 [c8RowA, c8RowB, c8RowC] = [c8RowC, c8RowB, c8RowA] :=
  ⟨List.perm_insertionSort newerFirst _, List.sorted_insertionSort newerFirst _,
   by decide⟩

/-- Claim C9: a filename with no `'.'` fails `allowed_file` and is rejected
by the upload pipeline with the file-type validation error before any
filename is allocated (no side effects); conversely, whenever `allowed_file`
accepts a filename, the indexing `rsplit('.', 1)[1]` inside
`generate_unique_filename` cannot fail — the function returns the allocated
name rather than raising. -/
theorem C9_extension_guard_safety (env : UploadEnv) (fname : Str) (fs : FS)
    (db : List ImageRow) (sec : Str → Str) (token f : Str)
    (hnodot : fname.contains '.' = false) (hne : fname ≠ [])
    (hok : allowed_file f = true) :
    allowed_file fname = false ∧
    upload env (some fname) fs db =
      (UploadResult.validationError
        "File type not allowed. Please upload an image (png, jpg, jpeg, gif, bmp).".toList,
       fs, db) ∧
    generate_unique_filename sec token f = some (token ++ "_".toList ++ sec f) := by
  have hfalse : allowed_file fname = false := by
    unfold allowed_file
    rw [hnodot]
    rfl
  refine ⟨hfalse, ?_, generate_eq_of_allowed sec token f hok⟩
  simp only [upload, if_neg hne, hfalse, Bool.not_false, if_true]

/-- Claim C9 witness: the statement evaluated on the dotless filename
`"noext"` and the accepted filename `"photo.png"`. -/
theorem C9_witness :
    allowed_file "noext".toList = false ∧
    upload envDog (some "noext".toList) fsEmptyRemovable [] =
      (UploadResult.validationError
        "File type not allowed. Please upload an image (png, jpg, jpeg, gif, bmp).".toList,
       fsEmptyRemovable, []) ∧
    generate_unique_filename secId "12345678".toList "photo.png".toList =
      some ("12345678".toList ++ "_".toList ++ secId "photo.png".toList) :=
  C9_extension_guard_safety envDog "noext".toList fsEmptyRemovable [] secId
    "12345678".toList "photo.png".toList (by decide) (by decide) (by decide)

/-- Claim C10: no stored filename ever equals any detected filename.  Every
name produced by `generate_unique_filename` begins with the upload's
8-character lowercase-hex uuid token followed by `'_'`, every detected
filename begins with `'detected_'`, and `"detected"` is not an 8-character
hex string (`'t'` is not a hex digit); hence a stored name never equals
`'detected_' +` any stored name, so writing a detected file never overwrites
a stored file. -/
theorem C10_stored_detected_disjoint (sec sec2 : Str → Str)
    (token token2 orig orig2 s s2 : Str)
    (hlen : token.length = 8)
    (hhex : ∀ c ∈ token, isUuidHexChar c = true)
    (hs : generate_unique_filename sec token orig = some s)
    (hs2 : generate_unique_filename sec2 token2 orig2 = some s2) :
    s ≠ "detected_".toList ++ s2 := by
  intro heq
  have e1 := generate_some_eq sec token orig s hs
  have e2 := generate_some_eq sec2 token2 orig2 s2 hs2
  rw [e1, e2] at heq
  rw [List.append_assoc] at heq
  have htok : token = "detected".toList := by
    calc token = (token ++ ("_".toList ++ sec orig)).take 8 := by
          rw [← hlen, List.take_left]
      _ = ("detected_".toList ++ (token2 ++ "_".toList ++ sec2 orig2)).take 8 := by
          rw [heq]
      _ = "detected".toList := rfl
  have ht : isUuidHexChar 't' = true := hhex 't' (by rw [htok]; decide)
  exact absurd ht (by decide)

/-- Claim C10 witness: two concretely allocated names; the first stored name
differs from the detected name derived from the second. -/
theorem C10_witness :
    "aaaabbbb_a.png".toList ≠ "detected_".toList ++ "ccccdddd_b.png".toList :=
  C10_stored_detected_disjoint secId secId "aaaabbbb".toList "ccccdddd".toList
    "a.png".toList "b.png".toList "aaaabbbb_a.png".toList "ccccdddd_b.png".toList
    (by decide) (by decide) (by decide) (by decide)
